import Mathlib

/-!
# Greeting-card editor: element transform & gesture engine

A shallow embedding of the editor's data model and commit logic:

* `CssVal`, `ComponentStyle`, `Component` — the stored style record and
  component list (JSON template shape, string-valued CSS fields modelled
  as tagged rational values).
* `applyPosition` / `handlePositionChange` — the drag commit
  (`handlePositionChange` in `GreetingEditor` / `GreetingEditorModal`).
* `applyFontSize` / `handleFontSizeChange` — the pinch-zoom commit
  (`handleFontSizeChange` in `GreetingEditor`), including the
  line-height rescale.
* `onScaleStart` / `onScaleEnd` — the scale-gesture snapshot and the
  round-and-clamp computation of the committed font size and width
  (`EditableElement`).
* pointer-session models for the inline and modal element wrappers
  (`EditableElement` / `EditableElementModal`), and the selection/editing
  coordinator state machine of `GreetingEditor`.
* the text edit buffer round trip (`TextEditModal.handleSave`,
  `EditableElement.handleBlur`).
-/

namespace Greeting

/-- A parsed CSS value as stored in a component's style record:
`px q` stands for the string `"…px"`, `pct q` for `"…%"`, and
`num q` for a bare number string such as `"1.6"`. -/
inductive CssVal where
  | px (q : ℚ)
  | pct (q : ℚ)
  | num (q : ℚ)
  deriving DecidableEq, Repr

/-- The numeric value read off by `parseFloat(String(v).replace('px',''))`
for any of the three value shapes (for `"q%"`, `parseFloat` stops at `%`). -/
def CssVal.numVal : CssVal → ℚ
  | .px q => q
  | .pct q => q
  | .num q => q

/-- `parseFloat(String(v).replace('px',''))` on an optional style field:
an absent field stringifies to `"undefined"` and parses to NaN (`none`). -/
def parsePx : Option CssVal → Option ℚ
  | some v => some v.numVal
  | none => none

/-- JavaScript `a || d` applied to a parse result: `NaN` (`none`) and `0`
are falsy and fall back to the default. -/
def jsOr : Option ℚ → ℚ → ℚ
  | some q, d => if q = 0 then d else q
  | none, d => d

/-- JavaScript `Math.round`: halves round toward `+∞`. -/
def jsRound (q : ℚ) : ℤ := ⌊q + 1/2⌋

/-- Rounding to one decimal place, the `Math.round(x * 10) / 10` idiom. -/
def roundTo1dp (q : ℚ) : ℚ := ((jsRound (q * 10) : ℚ)) / 10

/-- `max lo (min hi x)` — the clamp-into-interval idiom of the commit code. -/
def clampQ (lo hi x : ℚ) : ℚ := max lo (min hi x)

/-- The `ComponentStyle` record of the source (all fields optional). -/
structure ComponentStyle where
  position : Option String := none
  left : Option CssVal := none
  top : Option CssVal := none
  width : Option CssVal := none
  fontSize : Option CssVal := none
  fontFamily : Option String := none
  fontWeight : Option String := none
  textAlign : Option String := none
  lineHeight : Option CssVal := none
  letterSpacing : Option CssVal := none
  color : Option String := none
  whiteSpace : Option String := none
  textTransform : Option String := none
  transform : Option String := none
  deriving DecidableEq, Repr

/-- A component of the template: `{ id, type, content, style }`. -/
structure Component where
  id : String
  type : String
  content : String
  style : ComponentStyle
  deriving DecidableEq, Repr

/-! ## Drag commit (`handlePositionChange`) -/

/-- The per-component update of `handlePositionChange`: write
`left = x+"px"`, `top = y+"px"`, clear `transform`, keep everything else. -/
def applyPosition (x y : ℚ) (comp : Component) : Component :=
  { comp with style :=
      { comp.style with
          left := some (.px x)
          top := some (.px y)
          transform := none } }

/-- `handlePositionChange(elementId, x, y)` over the component list. -/
def handlePositionChange (comps : List Component) (elementId : String)
    (x y : ℚ) : List Component :=
  comps.map fun comp =>
    if comp.id = elementId then applyPosition x y comp else comp

/-! ## Pinch-zoom commit (`handleFontSizeChange`) -/

/-- The per-component update of `handleFontSizeChange`: recompute the
ratio against the stored font size (fallback 16), rescale any stored
`lineHeight` by that ratio rounded to one decimal and re-suffix it with
`px`, and write the new `fontSize` (and `width` when given). -/
def applyFontSize (newFontSize : ℚ) (newWidth : Option ℚ)
    (comp : Component) : Component :=
  let oldFontSize := jsOr (parsePx comp.style.fontSize) 16
  let ratio := newFontSize / oldFontSize
  let newLineHeight : Option ℚ :=
    match comp.style.lineHeight with
    | some lh => some (((jsRound (lh.numVal * ratio * 10) : ℚ)) / 10)
    | none => none
  { comp with style :=
      { comp.style with
          fontSize := some (.px newFontSize)
          width := match newWidth with
            | some w => some (.px w)
            | none => comp.style.width
          lineHeight := match newLineHeight with
            | some v => some (.px v)
            | none => comp.style.lineHeight } }

/-- `handleFontSizeChange(elementId, newFontSize, newWidth)` over the list. -/
def handleFontSizeChange (comps : List Component) (elementId : String)
    (newFontSize : ℚ) (newWidth : Option ℚ) : List Component :=
  comps.map fun comp =>
    if comp.id = elementId then applyFontSize newFontSize newWidth comp else comp

/-! ## Scale gesture (`onScaleStart` / `onScaleEnd`) -/

/-- The width the element is rendered with: the exact string `"100%"` is
replaced by the container width in px, everything else passes through. -/
def renderedWidth (w : Option CssVal) (containerWidth : ℚ) : Option CssVal :=
  match w with
  | some (.pct q) => if q = 100 then some (.px containerWidth) else some (.pct q)
  | other => other

/-- The style prop handed to the element wrapper (only the fields the
gesture code reads are relevant; `width` has `"100%"` resolved). -/
def textStyleOf (style : ComponentStyle) (containerWidth : ℚ) : ComponentStyle :=
  { style with width := renderedWidth style.width containerWidth }

/-- The snapshot taken by `onScaleStart`. -/
structure ScaleSnapshot where
  initialFontSize : ℚ
  initialWidth : ℚ
  deriving DecidableEq, Repr

/-- `onScaleStart`: parse the current font size (fallback 16) and width
(fallback: container width). -/
def onScaleStart (style : ComponentStyle) (containerWidth : ℚ) : ScaleSnapshot :=
  { initialFontSize := jsOr (parsePx style.fontSize) 16
    initialWidth := jsOr (parsePx style.width) containerWidth }

/-- `onScaleEnd`: `scale = e.lastEvent?.scale?.[0] || 1`, then round the
scaled snapshot values and clamp font size into `[8, 72]` and width into
`[50, containerWidth]`.  Returns the committed `(fontSize, width)`. -/
def onScaleEnd (snap : ScaleSnapshot) (lastScale : Option ℚ)
    (containerWidth : ℚ) : ℚ × ℚ :=
  let scale := jsOr lastScale 1
  let newFontSize := jsRound (snap.initialFontSize * scale)
  let newWidth := jsRound (snap.initialWidth * scale)
  let clampedFontSize := max 8 (min 72 newFontSize)
  let clampedWidth := max 50 (min containerWidth ((newWidth : ℚ)))
  (((clampedFontSize : ℚ)), clampedWidth)

/-- A whole scale session on one component: snapshot at scale start,
commit at scale end through `applyFontSize`. -/
def scaleCommitOne (lastScale : Option ℚ) (containerWidth : ℚ)
    (comp : Component) : Component :=
  let snap := onScaleStart (textStyleOf comp.style containerWidth) containerWidth
  let fw := onScaleEnd snap lastScale containerWidth
  applyFontSize fw.1 (some fw.2) comp

/-! ## Pointer sessions on the element wrappers -/

/-- A pointer position in client coordinates. -/
structure Pt where
  x : ℚ
  y : ℚ
  deriving DecidableEq, Repr

/-- One `onDrag` step of the inline wrapper `EditableElement`: classify as
drag once either axis moved more than 5 px from the pointer-down
position (sticky), and set the live transform to the element origin plus
the cumulative pointer delta. -/
def inlineDragStep (down pos : Pt) (st : Bool × Pt) (m : Pt) : Bool × Pt :=
  let dx := |m.x - down.x|
  let dy := |m.y - down.y|
  let dragging := if dx > 5 ∨ dy > 5 then true else st.1
  (dragging, ⟨pos.x + (m.x - down.x), pos.y + (m.y - down.y)⟩)

/-- Outcome of one pointer-down-to-up cycle on the inline wrapper. -/
structure InlineOutcome where
  /-- the `(x, y)` handed to `onPositionChange`, when it was called -/
  commit : Option Pt
  /-- `onSelect(); onStartEdit()` fired (the tap path of `handleClick`) -/
  tap : Bool
  deriving DecidableEq, Repr

/-- Run an inline-wrapper pointer session: pointer down at `down` with the
element at `pos`, a list of `onDrag` move positions, then release.  On
release the wrapper's own `onMouseUp` (`handleClick`) fires while the
event bubbles, before Moveable's `onDragEnd`, so the tap test reads the
drag flag set during the moves; `onDragEnd` then always reads the final
transform and calls `onPositionChange` — it has no drag guard. -/
def runInlineSession (pos down : Pt) (moves : List Pt) (isEditing : Bool) :
    InlineOutcome :=
  let st := moves.foldl (inlineDragStep down pos) (false, pos)
  let tap := if st.1 then false else if isEditing then false else true
  { commit := some st.2, tap := tap }

/-- One `onDrag` step of the modal wrapper `EditableElementModal`: the
move is ignored unless the gesture started on this element and it is
selected; otherwise classify and move exactly as the inline wrapper. -/
def modalDragStep (down pos : Pt) (disabled allowDrag isSelected : Bool)
    (st : Bool × Pt) (m : Pt) : Bool × Pt :=
  if disabled || !allowDrag || !isSelected then st
  else
    let dx := |m.x - down.x|
    let dy := |m.y - down.y|
    let dragging := if dx > 5 ∨ dy > 5 then true else st.1
    (dragging, ⟨pos.x + (m.x - down.x), pos.y + (m.y - down.y)⟩)

/-- Outcome of one pointer-down-to-up cycle on the modal wrapper,
including the host's selection state (the host wires `onSelect` to
`setSelectedElementId(id)` and `onRelease` to `setSelectedElementId(null)`). -/
structure ModalOutcome where
  /-- the `(x, y)` handed to `onPositionChange`, when it was called -/
  commit : Option Pt
  /-- `selectedElementId` after the session -/
  selection : Option String
  /-- `onClick` fired (the text-edit modal was opened) -/
  modalOpened : Bool
  deriving DecidableEq, Repr

/-- Run a modal-wrapper pointer session.  `onMouseDown` records the down
position, sets `allowDrag` and selects the element.  Moves run
`onDrag`.  On release, Moveable's `onDragEnd` (document-level listener)
fires first: if the session was classified as a drag it commits the
transform position and calls `onRelease` (clearing the selection) and
resets both flags; the wrapper's `onMouseUp` (`handleMouseUp`) then
re-measures the displacement of the release point and either takes the
drag branch (`onRelease`) or the tap branch (`onSelect(); onClick()`). -/
def runModalSession (id : String) (sel0 : Option String) (pos down : Pt)
    (moves : List Pt) (disabled : Bool) : ModalOutcome :=
  let allowDrag := !disabled
  let sel1 := if disabled then sel0 else some id
  let isSelected := decide (sel1 = some id)
  let st := moves.foldl (modalDragStep down pos disabled allowDrag isSelected)
    (false, pos)
  let up := moves.getLast?.getD down
  let dx := |up.x - down.x|
  let dy := |up.y - down.y|
  if st.1 && allowDrag then
    -- onDragEnd commits and releases; flags are reset before onMouseUp runs
    if dx > 5 ∨ dy > 5 then
      { commit := some st.2, selection := none, modalOpened := false }
    else if disabled then
      { commit := some st.2, selection := none, modalOpened := false }
    else
      { commit := some st.2, selection := some id, modalOpened := true }
  else
    if dx > 5 ∨ dy > 5 then
      { commit := none, selection := none, modalOpened := false }
    else if disabled then
      { commit := none, selection := sel1, modalOpened := false }
    else
      { commit := none, selection := some id, modalOpened := true }

/-! ## Selection/editing coordinator (`GreetingEditor`) -/

/-- The coordinator's interaction state: `selectedElementId`,
`isToolbarOpen`, `editingElementId`. -/
structure EditorState where
  selectedElementId : Option String
  isToolbarOpen : Bool
  editingElementId : Option String
  deriving DecidableEq, Repr

/-- The idle state before any interaction. -/
def initialEditorState : EditorState := ⟨none, false, none⟩

/-- `handleElementSelect`: select the element and open the toolbar; if
another element was being edited, move editing onto the new element. -/
def handleElementSelect (id : String) (s : EditorState) : EditorState :=
  let wasEditing := s.editingElementId.isSome
  let s1 := { s with selectedElementId := some id, isToolbarOpen := true }
  if wasEditing && !(s.editingElementId = some id : Bool) then
    { s1 with editingElementId := some id }
  else s1

/-- `handleStartEdit`: begin inline editing of the element. -/
def handleStartEdit (id : String) (s : EditorState) : EditorState :=
  { s with editingElementId := some id }

/-- `handleToolbarClose`: clear selection, toolbar and editing. -/
def handleToolbarClose (_ : EditorState) : EditorState := ⟨none, false, none⟩

/-- `handleBackgroundClick`: clear selection, toolbar and editing. -/
def handleBackgroundClick (_ : EditorState) : EditorState := ⟨none, false, none⟩

/-- `handleContentChange` (inline save): editing ends, selection stays. -/
def handleContentSave (s : EditorState) : EditorState :=
  { s with editingElementId := none }

/-- A tap on element `id` as dispatched by the inline wrapper's
`handleClick`: ignored while that element is already editing, otherwise
`onSelect()` then `onStartEdit()`. -/
def tapElement (id : String) (s : EditorState) : EditorState :=
  if s.editingElementId = some id then s
  else handleStartEdit id (handleElementSelect id s)

/-- The coordinator's input events as generated by the UI. -/
inductive EditorEvent where
  | tapElement (id : String)
  | contentSave
  | toolbarClose
  | backgroundTap
  deriving DecidableEq, Repr

/-- One coordinator transition. -/
def editorStep (s : EditorState) : EditorEvent → EditorState
  | .tapElement id => tapElement id s
  | .contentSave => handleContentSave s
  | .toolbarClose => handleToolbarClose s
  | .backgroundTap => handleBackgroundClick s

/-- Run an event sequence from the idle state. -/
def runEditor (evs : List EditorEvent) : EditorState :=
  evs.foldl editorStep initialEditorState

/-! ## Text edit buffer (`TextEditModal`, inline `handleBlur`) -/

/-- `content.replace(/\n/g, '<br>')` — the content-to-buffer conversion. -/
def toHtmlData : List Char → List Char
  | [] => []
  | c :: cs =>
    if c = '\n' then '<' :: 'b' :: 'r' :: '>' :: toHtmlData cs
    else c :: toHtmlData cs

/-- The editable buffer's HTML for a stored content string. -/
def toHtml (content : String) : String := String.mk (toHtmlData content.data)

/-- Whitespace as matched by the regex class `\s` (ASCII part). -/
def jsSpace (c : Char) : Bool :=
  c = ' ' || c = '\t' || c = '\n' || c = '\r' ||
  c = Char.ofNat 11 || c = Char.ofNat 12

/-- Case-insensitive literal prefix match (pattern given in lowercase);
returns the rest of the input on success. -/
def stripCI : List Char → List Char → Option (List Char)
  | [], s => some s
  | _ :: _, [] => none
  | p :: ps, c :: cs => if c.toLower = p then stripCI ps cs else none

/-- Match `/<br\s*\/?>/i` at the head of the input. -/
def brMatch : List Char → Option (List Char)
  | '<' :: b :: r :: rest =>
    if b.toLower = 'b' && r.toLower = 'r' then
      match rest.dropWhile jsSpace with
      | '/' :: '>' :: t => some t
      | '>' :: t => some t
      | _ => none
    else none
  | _ => none

/-- `.replace(/<br\s*\/?>/gi, '\n')`. -/
def brToNlAux : Nat → List Char → List Char
  | 0, s => s
  | _ + 1, [] => []
  | n + 1, c :: cs =>
    match brMatch (c :: cs) with
    | some rest => '\n' :: brToNlAux n rest
    | none => c :: brToNlAux n cs

/-- `.replace(/<br\s*\/?>/gi, '\n')` on a character list. -/
def brToNl (s : List Char) : List Char := brToNlAux s.length s

/-- `.replace(/<[^>]*>/g, '')`: drop every `<`-to-`>` run; a `<` with no
closing `>` in the remainder matches nothing and is kept. -/
def stripTagsAux : Nat → List Char → List Char
  | 0, s => s
  | _ + 1, [] => []
  | n + 1, c :: cs =>
    if c = '<' then
      match cs.dropWhile (fun d => !(d = '>')) with
      | _ :: t => stripTagsAux n t
      | [] => c :: cs
    else c :: stripTagsAux n cs

/-- `.replace(/<[^>]*>/g, '')` on a character list. -/
def stripTags (s : List Char) : List Char := stripTagsAux s.length s

/-- Global case-insensitive literal replacement, the `.replace(/lit/gi, r)`
idiom for a fixed literal pattern. -/
def replaceAllCIAux : Nat → List Char → List Char → List Char → List Char
  | 0, _, _, s => s
  | _ + 1, _, _, [] => []
  | n + 1, pat, repl, c :: cs =>
    match stripCI pat (c :: cs) with
    | some rest => repl ++ replaceAllCIAux n pat repl rest
    | none => c :: replaceAllCIAux n pat repl cs

/-- Global case-insensitive literal replacement on a character list. -/
def replaceAllCI (pat repl s : List Char) : List Char :=
  replaceAllCIAux s.length pat repl s

/-- A character the regex `.` does not match (no `s` flag): line
terminators. -/
def lineTerm (c : Char) : Bool :=
  c = '\n' || c = '\r' || c = Char.ofNat 0x2028 || c = Char.ofNat 0x2029

/-- Scan for the earliest `</div>` (case-insensitive) reachable without
crossing a line terminator; returns the captured run and the rest. -/
def divClose : Nat → List Char → Option (List Char × List Char)
  | 0, _ => none
  | _ + 1, [] => none
  | n + 1, c :: cs =>
    match stripCI "</div>".data (c :: cs) with
    | some rest => some ([], rest)
    | none =>
      if lineTerm c then none
      else
        match divClose n cs with
        | some (cap, rest) => some (c :: cap, rest)
        | none => none

/-- `.replace(/<div>(.*?)<\/div>/gi, '<br>$1')`. -/
def divPairsAux : Nat → List Char → List Char
  | 0, s => s
  | _ + 1, [] => []
  | n + 1, c :: cs =>
    match stripCI "<div>".data (c :: cs) with
    | some afterOpen =>
      match divClose afterOpen.length afterOpen with
      | some (cap, rest) => "<br>".data ++ cap ++ divPairsAux n rest
      | none => c :: divPairsAux n cs
    | none => c :: divPairsAux n cs

/-- `.replace(/^<br>/i, '')`: drop one leading `<br>`. -/
def stripLeadingBr (s : List Char) : List Char :=
  match stripCI "<br>".data s with
  | some rest => rest
  | none => s

/-- `TextEditModal.handleSave`: normalize `div` wrappers to `<br>`, trim
one leading `<br>`, turn `<br>` into newlines and strip residual tags. -/
def modalSaveTransform (html : String) : String :=
  let s1 := replaceAllCI "<div><br></div>".data "<br>".data html.data
  let s2 := divPairsAux s1.length s1
  let s3 := stripLeadingBr s2
  let s4 := brToNl s3
  String.mk (stripTags s4)

/-- Inline `EditableElement.handleBlur`: `<br>` to newline, `<div>` to
newline, drop `</div>`, strip residual tags. -/
def inlineBlurTransform (html : String) : String :=
  let s1 := brToNl html.data
  let s2 := replaceAllCI "<div>".data "\n".data s1
  let s3 := replaceAllCI "</div>".data [] s2
  String.mk (stripTags s3)

/-! ## Modal edit session (`GreetingEditorModal` + `TextEditModal`) -/

/-- The modal host's state: the store, the component being edited, the
snapshot taken when the modal opened, and the live edit buffer. -/
structure ModalEditorState where
  comps : List Component
  editingComponent : Option Component
  initialEditContent : Option String
  initialEditStyle : Option ComponentStyle
  htmlBuffer : String
  deriving Repr

/-- Shallow merge `{...base, ...upd}` on optional fields: a field present
in the update wins. -/
def ov {α : Type} (u b : Option α) : Option α :=
  match u with
  | some v => some v
  | none => b

/-- `{...comp.style, ...newStyle}`. -/
def mergeStyle (base upd : ComponentStyle) : ComponentStyle :=
  { position := ov upd.position base.position
    left := ov upd.left base.left
    top := ov upd.top base.top
    width := ov upd.width base.width
    fontSize := ov upd.fontSize base.fontSize
    fontFamily := ov upd.fontFamily base.fontFamily
    fontWeight := ov upd.fontWeight base.fontWeight
    textAlign := ov upd.textAlign base.textAlign
    lineHeight := ov upd.lineHeight base.lineHeight
    letterSpacing := ov upd.letterSpacing base.letterSpacing
    color := ov upd.color base.color
    whiteSpace := ov upd.whiteSpace base.whiteSpace
    textTransform := ov upd.textTransform base.textTransform
    transform := ov upd.transform base.transform }

/-- `handleElementClick`: snapshot content and style, open the modal; the
modal's open effect fills the buffer with `content.replace(/\n/g,'<br>')`. -/
def handleElementClick (comp : Component) (s : ModalEditorState) :
    ModalEditorState :=
  { s with
      initialEditContent := some comp.content
      initialEditStyle := some comp.style
      editingComponent := some comp
      htmlBuffer := toHtml comp.content }

/-- `handleStyleChange` of the modal host: merge the partial style into
the matching component (and into `editingComponent`); applied
immediately, not buffered. -/
def handleStyleChangeModal (elementId : String) (upd : ComponentStyle)
    (s : ModalEditorState) : ModalEditorState :=
  let comps' := s.comps.map fun c =>
    if c.id = elementId then { c with style := mergeStyle c.style upd } else c
  let editing' :=
    match s.editingComponent with
    | some e =>
      if e.id = elementId then some { e with style := mergeStyle e.style upd }
      else some e
    | none => none
  { s with comps := comps', editingComponent := editing' }

/-- `handleColorChange` in the modal toolbar: `onStyleChange({ color })`. -/
def handleColorChangeModal (color : String) (s : ModalEditorState) :
    ModalEditorState :=
  match s.editingComponent with
  | some e => handleStyleChangeModal e.id { color := some color } s
  | none => s

/-- Typing in the editable buffer: only `htmlContent` changes; the stored
content is untouched until Save. -/
def editBuffer (t : String) (s : ModalEditorState) : ModalEditorState :=
  { s with htmlBuffer := t }

/-- `handleReset`: restore the buffer from the content snapshot and merge
the style snapshot back into the component via `onStyleChange`. -/
def handleResetModal (s : ModalEditorState) : ModalEditorState :=
  let s1 :=
    match s.initialEditContent with
    | some ic => { s with htmlBuffer := toHtml ic }
    | none => s
  match s1.initialEditStyle, s1.editingComponent with
  | some st, some e => handleStyleChangeModal e.id st s1
  | _, _ => s1

/-! ## Sample components used by concrete checks -/

/-- A component whose stored line height is the unitless string `"1.6"`. -/
def scaleZeroSample : Component :=
  { id := "t1", type := "text", content := "hi",
    style := { fontSize := some (.px 16), width := some (.px 100),
               lineHeight := some (.num (8/5)), color := some "#333333" } }

/-- A component with an explicit pixel line height `"32px"`. -/
def lineHeightSample : Component :=
  { id := "t2", type := "text", content := "hello",
    style := { fontSize := some (.px 20), lineHeight := some (.px 32) } }

/-- A component positioned by the centered sentinel before a drag. -/
def dragSample : Component :=
  { id := "t3", type := "text", content := "hello",
    style := { left := some (.pct 50), top := some (.px 40),
               transform := some "translateX(-50%)", color := some "#fff" } }

/-- A component with a unitless line height for the px-suffix check. -/
def unitlessSample : Component :=
  { id := "t4", type := "text", content := "hey",
    style := { fontSize := some (.px 16), lineHeight := some (.num (8/5)) } }

/-- A component whose stored left/top are plain pixel values. -/
def inlineDragSample : Component :=
  { id := "e1", type := "text", content := "hi",
    style := { left := some (.px 10), top := some (.px 20) } }

/-- A component with content `"A"` and color `"#111"` for the reset check. -/
def resetSample : Component :=
  { id := "r1", type := "text", content := "A",
    style := { color := some "#111" } }

/-! ## Helper lemmas -/

/-- A sub-threshold session never sets the drag flag, and the live
transform is the origin or the origin shifted by one of the move deltas. -/
lemma inline_subthreshold_fold (down pos : Pt) :
    ∀ (moves : List Pt) (tf : Pt),
      (∀ m ∈ moves, |m.x - down.x| ≤ 5 ∧ |m.y - down.y| ≤ 5) →
      (moves.foldl (inlineDragStep down pos) (false, tf)).1 = false
      ∧ ((moves.foldl (inlineDragStep down pos) (false, tf)).2 = tf
         ∨ ∃ m ∈ moves, (moves.foldl (inlineDragStep down pos) (false, tf)).2
             = ⟨pos.x + (m.x - down.x), pos.y + (m.y - down.y)⟩) := by
  intro moves
  induction moves with
  | nil => intro tf h; simp
  | cons m ms ih =>
    intro tf h
    have hm := h m (List.mem_cons_self m ms)
    have hstep : inlineDragStep down pos (false, tf) m
        = (false, ⟨pos.x + (m.x - down.x), pos.y + (m.y - down.y)⟩) := by
      simp [inlineDragStep, hm.1.not_lt, hm.2.not_lt]
    rw [List.foldl_cons, hstep]
    rcases ih _ (fun a ha => h a (List.mem_cons_of_mem _ ha)) with ⟨h1, h2⟩
    refine ⟨h1, ?_⟩
    rcases h2 with h2 | ⟨a, ha, h2⟩
    · exact Or.inr ⟨m, List.mem_cons_self _ _, h2⟩
    · exact Or.inr ⟨a, List.mem_cons_of_mem _ ha, h2⟩

/-- With the gesture enabled and the element selected, the modal wrapper's
drag step is the inline wrapper's drag step. -/
lemma modal_inline_step_eq (down pos : Pt) :
    modalDragStep down pos false true true = inlineDragStep down pos := by
  funext st m
  simp [modalDragStep, inlineDragStep]

/-- The drag flag is sticky: once set it survives the rest of the moves. -/
lemma drag_flag_stays (down pos : Pt) (d a sel : Bool) :
    ∀ (moves : List Pt) (st : Bool × Pt), st.1 = true →
      (moves.foldl (modalDragStep down pos d a sel) st).1 = true := by
  intro moves
  induction moves with
  | nil => intro st h; simpa using h
  | cons m ms ih =>
    intro st h
    rw [List.foldl_cons]
    apply ih
    simp only [modalDragStep]
    split_ifs <;> simp_all

/-- A move beyond the threshold on either axis sets the drag flag. -/
lemma drag_flag_set (down pos : Pt) :
    ∀ (moves : List Pt) (st : Bool × Pt) (m : Pt), m ∈ moves →
      (5 < |m.x - down.x| ∨ 5 < |m.y - down.y|) →
      (moves.foldl (modalDragStep down pos false true true) st).1 = true := by
  intro moves
  induction moves with
  | nil => intro st m hm; cases hm
  | cons a ms ih =>
    intro st m hm hcross
    rw [List.foldl_cons]
    rcases List.mem_cons.mp hm with rfl | hm'
    · apply drag_flag_stays
      simp [modalDragStep, hcross]
    · exact ih _ m hm' hcross

/-- Every coordinator transition preserves the selection invariant. -/
lemma editorStep_preserves (s : EditorState) (e : EditorEvent)
    (h : ∀ id, s.editingElementId = some id → s.selectedElementId = some id) :
    ∀ id, (editorStep s e).editingElementId = some id →
      (editorStep s e).selectedElementId = some id := by
  cases e with
  | tapElement tid =>
    intro id hid
    by_cases htap : s.editingElementId = some tid
    · simp only [editorStep, tapElement, if_pos htap] at hid ⊢
      exact h id hid
    · simp only [editorStep, tapElement, if_neg htap, handleStartEdit,
        handleElementSelect] at hid ⊢
      obtain rfl := Option.some.inj hid
      split <;> rfl
  | contentSave =>
    intro id hid
    simp [editorStep, handleContentSave] at hid
  | toolbarClose =>
    intro id hid
    simp [editorStep, handleToolbarClose] at hid
  | backgroundTap =>
    intro id hid
    simp [editorStep, handleBackgroundClick] at hid

/-- The selection invariant propagates along any event sequence. -/
lemma runEditor_aux (evs : List EditorEvent) :
    ∀ s : EditorState,
      (∀ id, s.editingElementId = some id → s.selectedElementId = some id) →
      ∀ id, (evs.foldl editorStep s).editingElementId = some id →
        (evs.foldl editorStep s).selectedElementId = some id := by
  induction evs with
  | nil => intro s h; simpa using h
  | cons e es ih =>
    intro s h
    rw [List.foldl_cons]
    exact ih _ (editorStep_preserves s e h)

/-! ## Claim theorems -/

/-- Claim C1, counterexample: an inline-wrapper session whose single move
stays within the 5 px threshold on both axes still ends in a position
commit — `onDragEnd` calls `onPositionChange(13, 20)` although the
element origin was `(10, 20)`, so the committed `left` differs from the
stored `left`, refuting "no position commit is ever written". -/
theorem tap_threshold_counterexample :
    (|(103 : ℚ) - 100| ≤ 5 ∧ |(100 : ℚ) - 100| ≤ 5)
    ∧ runInlineSession ⟨10, 20⟩ ⟨100, 100⟩ [⟨103, 100⟩] false
        = { commit := some ⟨13, 20⟩, tap := true }
    ∧ (applyPosition 13 20 inlineDragSample).style.left
        ≠ inlineDragSample.style.left := by
  refine ⟨by norm_num, by norm_num [runInlineSession, inlineDragStep], ?_⟩
  norm_num [applyPosition, inlineDragSample]

/-- Claim C1 (amended): a pointer session whose every move stays within
5 px of the pointer-down point on both axes ends as a Tap in both
wrappers, and the modal wrapper writes no position commit; the inline
wrapper, however, still calls `onPositionChange` with the final
transform position (within 5 px of the element origin), because its
`onDragEnd` has no drag guard. -/
theorem tap_threshold_amended (pos down : Pt) (moves : List Pt) (id : String)
    (sel0 : Option String)
    (h : ∀ m ∈ moves, |m.x - down.x| ≤ 5 ∧ |m.y - down.y| ≤ 5) :
    (runInlineSession pos down moves false).tap = true
    ∧ (∃ p, (runInlineSession pos down moves false).commit = some p
        ∧ |p.x - pos.x| ≤ 5 ∧ |p.y - pos.y| ≤ 5)
    ∧ (runModalSession id sel0 pos down moves false).commit = none
    ∧ (runModalSession id sel0 pos down moves false).modalOpened = true := by
  rcases inline_subthreshold_fold down pos moves pos h with ⟨h1, h2⟩
  have hpt : ∀ p, (moves.foldl (inlineDragStep down pos) (false, pos)).2 = p →
      |p.x - pos.x| ≤ 5 ∧ |p.y - pos.y| ≤ 5 := by
    intro p hp
    rcases h2 with h2 | ⟨a, ha, h2⟩
    · rw [hp] at h2; rw [h2]; simp
    · rw [hp] at h2; rw [h2]
      rcases h a ha with ⟨hx, hy⟩
      constructor
      · simpa using hx
      · simpa using hy
  have hup : ¬(5 < |(moves.getLast?.getD down).x - down.x|
      ∨ 5 < |(moves.getLast?.getD down).y - down.y|) := by
    rcases hlast : moves.getLast? with _ | u
    · simp
    · have hu : u ∈ moves := by
        have := List.mem_getLast?_eq_getLast (l := moves) (x := u)
          (by rw [hlast]; rfl)
        rcases this with ⟨hne, rfl⟩
        exact List.getLast_mem hne
      rcases h u hu with ⟨hx, hy⟩
      simp [hx.not_lt, hy.not_lt]
  constructor
  · simp [runInlineSession, h1]
  constructor
  · refine ⟨(moves.foldl (inlineDragStep down pos) (false, pos)).2, ?_, ?_, ?_⟩
    · simp [runInlineSession]
    · exact (hpt _ rfl).1
    · exact (hpt _ rfl).2
  · have hfold : (moves.foldl (modalDragStep down pos false true true)
        (false, pos)).1 = false := by
      rw [modal_inline_step_eq]; exact h1
    constructor
    · simp [runModalSession, hfold, hup]
    · simp [runModalSession, hfold, hup]

/-- Claim C1, witness: the amended theorem applied to a concrete
sub-threshold session. -/
theorem tap_threshold_amended_check :
    (runInlineSession ⟨10, 20⟩ ⟨100, 100⟩ [⟨103, 100⟩] false).tap = true
    ∧ (runModalSession "e1" none ⟨10, 20⟩ ⟨100, 100⟩ [⟨103, 100⟩] false).commit
        = none := by
  have h := tap_threshold_amended ⟨10, 20⟩ ⟨100, 100⟩ [⟨103, 100⟩] "e1" none
    (by intro m hm; rcases List.mem_singleton.mp hm with rfl; norm_num)
  exact ⟨h.1, h.2.2.1⟩

/-- Claim C2: for every sequence of UI events (element taps — which run
`onSelect()` then `onStartEdit()` —, content saves, toolbar closes and
background taps) from the idle state, an element being edited is always
the selected element, and at most one element is being edited. -/
theorem editing_implies_selected (evs : List EditorEvent) :
    (∀ id, (runEditor evs).editingElementId = some id →
      (runEditor evs).selectedElementId = some id)
    ∧ ∀ i j, (runEditor evs).editingElementId = some i →
        (runEditor evs).editingElementId = some j → i = j := by
  constructor
  · exact runEditor_aux evs initialEditorState (by simp [initialEditorState])
  · intro i j hi hj
    rw [hi] at hj
    exact Option.some.inj hj

/-- Claim C2, witness: after a single tap on `"a"`, that element is both
editing and selected. -/
theorem editing_implies_selected_check :
    (runEditor [.tapElement "a"]).editingElementId = some "a"
    ∧ (runEditor [.tapElement "a"]).selectedElementId = some "a" :=
  ⟨by decide, (editing_implies_selected [.tapElement "a"]).1 "a" (by decide)⟩

/-- Claim C3: for any scale factor `s > 0` the scale commit produces
`round(fontSize0 * s)` clamped into `[8, 72]` and `round(width0 * s)`
clamped into `[50, containerWidth]`, each clamp applied independently;
the committed font size always lies in `[8, 72]`, and `applyFontSize`
stores exactly these values in the style record. -/
theorem scale_commit_clamp (f0 w0 s cw : ℚ) (hs : 0 < s) :
    onScaleEnd ⟨f0, w0⟩ (some s) cw
      = (clampQ 8 72 ((jsRound (f0 * s) : ℚ)), clampQ 50 cw ((jsRound (w0 * s) : ℚ)))
    ∧ 8 ≤ (onScaleEnd ⟨f0, w0⟩ (some s) cw).1
    ∧ (onScaleEnd ⟨f0, w0⟩ (some s) cw).1 ≤ 72
    ∧ ∀ comp : Component,
        (applyFontSize (onScaleEnd ⟨f0, w0⟩ (some s) cw).1
          (some (onScaleEnd ⟨f0, w0⟩ (some s) cw).2) comp).style.fontSize
            = some (.px (clampQ 8 72 ((jsRound (f0 * s) : ℚ))))
        ∧ (applyFontSize (onScaleEnd ⟨f0, w0⟩ (some s) cw).1
            (some (onScaleEnd ⟨f0, w0⟩ (some s) cw).2) comp).style.width
              = some (.px (clampQ 50 cw ((jsRound (w0 * s) : ℚ)))) := by
  have hs' : s ≠ 0 := ne_of_gt hs
  have heq : onScaleEnd ⟨f0, w0⟩ (some s) cw
      = (clampQ 8 72 ((jsRound (f0 * s) : ℚ)), clampQ 50 cw ((jsRound (w0 * s) : ℚ))) := by
    simp only [onScaleEnd, jsOr, hs', if_false, clampQ]
    push_cast
    rfl
  refine ⟨heq, ?_, ?_, ?_⟩
  · simp only [onScaleEnd, jsOr, hs', if_false]
    have : (8 : ℤ) ≤ max 8 (min 72 (jsRound (f0 * s))) := le_max_left _ _
    exact_mod_cast this
  · simp only [onScaleEnd, jsOr, hs', if_false]
    have : max 8 (min 72 (jsRound (f0 * s))) ≤ (72 : ℤ) :=
      max_le (by norm_num) (min_le_left _ _)
    exact_mod_cast this
  · intro comp
    rw [heq]
    exact ⟨by simp [applyFontSize], by simp [applyFontSize]⟩

/-- Claim C3, witness: `s = 10` on `fontSize0 = 16` commits 72 and
`s = 0.1` commits 8, both inside `[8, 72]`. -/
theorem scale_commit_clamp_check :
    ((0 : ℚ) < 10 ∧ (onScaleEnd ⟨16, 100⟩ (some 10) 335).1 = 72
      ∧ 8 ≤ (onScaleEnd ⟨16, 100⟩ (some 10) 335).1
      ∧ (onScaleEnd ⟨16, 100⟩ (some 10) 335).1 ≤ 72)
    ∧ ((0 : ℚ) < 1/10 ∧ (onScaleEnd ⟨16, 100⟩ (some (1/10)) 335).1 = 8) := by
  refine ⟨⟨by norm_num, by norm_num [onScaleEnd, jsOr, jsRound], ?_, ?_⟩,
    by norm_num, by norm_num [onScaleEnd, jsOr, jsRound]⟩
  · exact (scale_commit_clamp 16 100 10 335 (by norm_num)).2.1
  · exact (scale_commit_clamp 16 100 10 335 (by norm_num)).2.2.1

/-- Claim C4, counterexample: with `s = 0` (and with `s` undefined) the
release is not a no-op — the scale falls back to 1 and the commit still
runs, rewriting the unitless stored line height `"1.6"` as the pixel
string `"1.6px"`, so `lineHeight` is not left exactly as it was. -/
theorem scale_zero_counterexample :
    (scaleCommitOne (some 0) 335 scaleZeroSample).style.lineHeight
        = some (.px (8/5))
    ∧ scaleZeroSample.style.lineHeight = some (.num (8/5))
    ∧ (scaleCommitOne (some 0) 335 scaleZeroSample).style.lineHeight
        ≠ scaleZeroSample.style.lineHeight
    ∧ (scaleCommitOne none 335 scaleZeroSample).style.lineHeight
        ≠ scaleZeroSample.style.lineHeight := by
  have h1 : (scaleCommitOne (some 0) 335 scaleZeroSample).style.lineHeight
      = some (.px (8/5)) := by
    norm_num [scaleCommitOne, scaleZeroSample, onScaleStart, onScaleEnd, textStyleOf,
      renderedWidth, applyFontSize, parsePx, CssVal.numVal, jsOr, jsRound]
  have h1' : (scaleCommitOne none 335 scaleZeroSample).style.lineHeight
      = some (.px (8/5)) := by
    norm_num [scaleCommitOne, scaleZeroSample, onScaleStart, onScaleEnd, textStyleOf,
      renderedWidth, applyFontSize, parsePx, CssVal.numVal, jsOr, jsRound]
  have h2 : scaleZeroSample.style.lineHeight = some (.num (8/5)) := rfl
  refine ⟨h1, h2, ?_, ?_⟩
  · rw [h1, h2]
    exact fun h => CssVal.noConfusion (Option.some.inj h)
  · rw [h1', h2]
    exact fun h => CssVal.noConfusion (Option.some.inj h)

/-- Claim C4 (amended): when the final scale factor resolves to 0 or is
undefined at release, it falls back to 1 and the commit still runs — the
release behaves exactly like a commit with `s = 1` (re-rounding,
re-clamping and re-suffixing the stored values), not like a skipped
commit. -/
theorem scale_zero_falls_back_to_one (cw : ℚ) (comp : Component) :
    scaleCommitOne (some 0) cw comp = scaleCommitOne (some 1) cw comp
    ∧ scaleCommitOne none cw comp = scaleCommitOne (some 1) cw comp := by
  simp [scaleCommitOne, onScaleEnd, jsOr]

/-- Claim C5: a scale commit on a component whose stored line height is
an explicit pixel value rescales it by `fontSize1 / fontSize0` and
rounds to one decimal place. -/
theorem lineheight_ratio_commit (comp : Component) (f0 L f1 : ℚ) (w : Option ℚ)
    (hfs : comp.style.fontSize = some (.px f0)) (hf0 : f0 ≠ 0)
    (hlh : comp.style.lineHeight = some (.px L)) :
    (applyFontSize f1 w comp).style.lineHeight
      = some (.px (roundTo1dp (L * (f1 / f0)))) := by
  simp [applyFontSize, hfs, hlh, parsePx, CssVal.numVal, jsOr, hf0, roundTo1dp]

/-- Claim C5, witness: `fontSize0 = 20`, `lineHeight0 = 32px`, committed
`fontSize1 = 30` yields `lineHeight1 = 48px`. -/
theorem lineheight_ratio_commit_check :
    (applyFontSize 30 none lineHeightSample).style.lineHeight = some (.px 48) := by
  have h := lineheight_ratio_commit lineHeightSample 20 32 30 none rfl
    (by norm_num) rfl
  rw [h]
  norm_num [roundTo1dp, jsRound]

/-- Claim C6: committing a drag to `(x, y)` yields a component whose
`left` is `x` px and `top` is `y` px exactly, with `transform` cleared
and the id, type, content and every other style field unchanged; the
updated component is in the store after `handlePositionChange`. -/
theorem drag_commit_fields (comps : List Component) (elementId : String) (x y : ℚ)
    (comp : Component) (hmem : comp ∈ comps) (hid : comp.id = elementId) :
    applyPosition x y comp ∈ handlePositionChange comps elementId x y
    ∧ (applyPosition x y comp).style.left = some (.px x)
    ∧ (applyPosition x y comp).style.top = some (.px y)
    ∧ (applyPosition x y comp).style.transform = none
    ∧ (applyPosition x y comp).id = comp.id
    ∧ (applyPosition x y comp).type = comp.type
    ∧ (applyPosition x y comp).content = comp.content
    ∧ (applyPosition x y comp).style.position = comp.style.position
    ∧ (applyPosition x y comp).style.width = comp.style.width
    ∧ (applyPosition x y comp).style.fontSize = comp.style.fontSize
    ∧ (applyPosition x y comp).style.fontFamily = comp.style.fontFamily
    ∧ (applyPosition x y comp).style.fontWeight = comp.style.fontWeight
    ∧ (applyPosition x y comp).style.textAlign = comp.style.textAlign
    ∧ (applyPosition x y comp).style.lineHeight = comp.style.lineHeight
    ∧ (applyPosition x y comp).style.letterSpacing = comp.style.letterSpacing
    ∧ (applyPosition x y comp).style.color = comp.style.color
    ∧ (applyPosition x y comp).style.whiteSpace = comp.style.whiteSpace
    ∧ (applyPosition x y comp).style.textTransform = comp.style.textTransform := by
  refine ⟨?_, by simp [applyPosition], by simp [applyPosition], by simp [applyPosition],
    by simp [applyPosition], by simp [applyPosition], by simp [applyPosition],
    by simp [applyPosition], by simp [applyPosition], by simp [applyPosition],
    by simp [applyPosition], by simp [applyPosition], by simp [applyPosition],
    by simp [applyPosition], by simp [applyPosition], by simp [applyPosition],
    by simp [applyPosition], by simp [applyPosition]⟩
  have h := List.mem_map_of_mem
    (f := fun c => if c.id = elementId then applyPosition x y c else c) hmem
  simpa [handlePositionChange, hid] using h

/-- Claim C6, witness: a concrete drag commit to `(12, 34)` on a
centered component. -/
theorem drag_commit_fields_check :
    applyPosition 12 34 dragSample ∈ handlePositionChange [dragSample] "t3" 12 34
    ∧ (applyPosition 12 34 dragSample).style.left = some (.px 12)
    ∧ (applyPosition 12 34 dragSample).style.top = some (.px 34)
    ∧ (applyPosition 12 34 dragSample).style.transform = none
    ∧ (applyPosition 12 34 dragSample).content = dragSample.content := by
  have h := drag_commit_fields [dragSample] "t3" 12 34 dragSample (by simp) rfl
  exact ⟨h.1, h.2.1, h.2.2.1, h.2.2.2.1, h.2.2.2.2.2.2.1⟩

/-- Claim C7: the two-line content `"Line1\nLine2"` converted into the
editable buffer and saved without edits comes back exactly, through the
modal save pipeline and through the inline blur pipeline. -/
theorem text_roundtrip :
    modalSaveTransform (toHtml "Line1\nLine2") = "Line1\nLine2"
    ∧ inlineBlurTransform (toHtml "Line1\nLine2") = "Line1\nLine2" := by
  decide

/-- Claim C8: opening an edit session on a component with content `"A"`
and color `"#111"`, editing the buffer, changing the color, and then
invoking Reset leaves the stored component with the snapshot content and
color, not the intermediate edited values. -/
theorem reset_restores (c : Component) (rest : List Component)
    (newHtml newColor : String)
    (hcontent : c.content = "A") (hcolor : c.style.color = some "#111") :
    ∃ c', (handleResetModal (handleColorChangeModal newColor (editBuffer newHtml
        (handleElementClick c ⟨c :: rest, none, none, none, ""⟩)))).comps.head?
          = some c'
      ∧ c'.content = "A" ∧ c'.style.color = some "#111" := by
  simp [handleResetModal, handleColorChangeModal, handleStyleChangeModal,
    handleElementClick, editBuffer, mergeStyle, ov, hcolor, hcontent]

/-- Claim C8, witness: the reset scenario run on a concrete component. -/
theorem reset_restores_check :
    ∃ c', (handleResetModal (handleColorChangeModal "#222" (editBuffer "B"
        (handleElementClick resetSample
          ⟨resetSample :: [], none, none, none, ""⟩)))).comps.head?
          = some c'
      ∧ c'.content = "A" ∧ c'.style.color = some "#111" :=
  reset_restores resetSample [] "B" "#222" rfl rfl

/-- Claim C9, counterexample: in modal mode a completed drag (10 px on
the x axis) commits the position and then clears the selection — the
coordinator ends Idle, not Selected(id), refuting "modal mode keeps
selection". -/
theorem modal_drag_keeps_selection_counterexample :
    runModalSession "t" (some "t") ⟨10, 20⟩ ⟨100, 100⟩ [⟨110, 100⟩] false
      = { commit := some ⟨20, 20⟩, selection := none, modalOpened := false }
    ∧ (runModalSession "t" (some "t") ⟨10, 20⟩ ⟨100, 100⟩ [⟨110, 100⟩] false).selection
        ≠ some "t" := by
  constructor
  · norm_num [runModalSession, modalDragStep]
  · norm_num [runModalSession, modalDragStep]
    exact fun h => Option.noConfusion h

/-- Claim C9 (amended): in modal mode, a completed drag — classified as a
drag by a move beyond the threshold and released beyond the threshold —
commits the position and clears the selection:
`Selected(id) --drag-commit--> Idle`. -/
theorem modal_drag_deselects (id : String) (sel0 : Option String) (pos down : Pt)
    (moves : List Pt) (m : Pt) (hm : m ∈ moves)
    (hcross : 5 < |m.x - down.x| ∨ 5 < |m.y - down.y|)
    (hup : 5 < |(moves.getLast?.getD down).x - down.x|
         ∨ 5 < |(moves.getLast?.getD down).y - down.y|) :
    (runModalSession id sel0 pos down moves false).selection = none
    ∧ ∃ p, (runModalSession id sel0 pos down moves false).commit = some p := by
  have hflag := drag_flag_set down pos moves (false, pos) m hm hcross
  simp [runModalSession, hflag, hup]

/-- Claim C9, witness: the amended theorem applied to a concrete
10 px drag. -/
theorem modal_drag_deselects_check :
    (runModalSession "t" (some "t") ⟨10, 20⟩ ⟨100, 100⟩ [⟨110, 100⟩] false).selection
      = none
    ∧ ∃ p, (runModalSession "t" (some "t") ⟨10, 20⟩ ⟨100, 100⟩ [⟨110, 100⟩]
        false).commit = some p :=
  modal_drag_deselects "t" (some "t") ⟨10, 20⟩ ⟨100, 100⟩ [⟨110, 100⟩] ⟨110, 100⟩
    (by simp) (by norm_num) (by norm_num)

/-- Claim C10: a scale commit on a component with any parseable stored
line height — pixel or unitless — writes back
`parseFloat(lineHeight) * (fontSize1 / fontSize0)` rounded to one
decimal place, always as a pixel value. -/
theorem lineheight_px_suffix (comp : Component) (f0 f1 : ℚ) (w : Option ℚ)
    (lh : CssVal)
    (hfs : comp.style.fontSize = some (.px f0)) (hf0 : f0 ≠ 0)
    (hlh : comp.style.lineHeight = some lh) :
    (applyFontSize f1 w comp).style.lineHeight
      = some (.px (roundTo1dp (lh.numVal * (f1 / f0)))) := by
  simp [applyFontSize, hfs, hlh, parsePx, CssVal.numVal, jsOr, hf0, roundTo1dp]

/-- Claim C10, witness: the unitless line height `"1.6"` on `fontSize0 =
16` committed to `fontSize1 = 32` becomes the pixel value `3.2px`. -/
theorem lineheight_px_suffix_check :
    (applyFontSize 32 (some 200) unitlessSample).style.lineHeight
      = some (.px (16/5)) := by
  have h := lineheight_px_suffix unitlessSample 16 32 (some 200) (.num (8/5)) rfl
    (by norm_num) rfl
  rw [h]
  norm_num [roundTo1dp, jsRound, CssVal.numVal]

end Greeting
